import Mathlib

/-!
Shallow embedding of the sales-forecasting pipeline in `src/app_financiera.py`
and proofs about its data-ingestion, consolidation, model-selection and
backtest logic.

Conventions of the embedding:
* Calendar months are linearised as `year * 12 + (month - 1) : Nat`, so one
  unit is one month and first-of-month dates compare like the pandas
  timestamps the source builds.
* Monetary amounts are `Int` (the structural claims do not depend on decimal
  fractions); the MAPE computation, which divides, uses `Rat`.
* A spreadsheet cell that `pd.to_numeric(errors=coerce)` maps to NaN is
  modelled as `none : Option Int`.
* The statsmodels fit calls can raise; whether a given fit raises is an
  oracle boolean parameter of the embedding of the module-level try/except.
-/

namespace AppFinanciera

/-- Substring test on character lists: `contieneLista s pat` is true when
`pat` occurs contiguously inside `s` — the semantics of Python's `pat in s`. -/
def contieneLista : List Char → List Char → Bool
  | [], pat => pat.isEmpty
  | c :: t, pat => pat.isPrefixOf (c :: t) || contieneLista t pat

/-- Python's `pat in s` membership test on strings. -/
def contiene (s pat : String) : Bool :=
  contieneLista s.toList pat.toList

/-- Python's `str.upper()` for the alphabets this program handles: upper-case
every character. -/
def aMayusculas (s : String) : String :=
  String.mk (s.toList.map Char.toUpper)

/-- Python's `str.strip()`: remove leading and trailing whitespace. -/
def recortar (s : String) : String :=
  String.mk (((s.toList.dropWhile Char.isWhitespace).reverse.dropWhile
    Char.isWhitespace).reverse)

/-- The month vocabulary `MAPA_MESES` of `app_financiera.py` (lines 13-16):
the twelve Spanish month names paired with their month numbers, in calendar
order, which is also the iteration order of the Python dict. -/
def MAPA_MESES : List (String × Nat) :=
  [("ENERO", 1), ("FEBRERO", 2), ("MARZO", 3), ("ABRIL", 4), ("MAYO", 5),
   ("JUNIO", 6), ("JULIO", 7), ("AGOSTO", 8), ("SEPTIEMBRE", 9),
   ("OCTUBRE", 10), ("NOVIEMBRE", 11), ("DICIEMBRE", 12)]

/-- The `for mes_nombre, mes_num in MAPA_MESES.items()` loop of
`escanear_mes_en_hoja`: first vocabulary entry whose name is a substring of
`s` wins. -/
def buscarMes : List (String × Nat) → String → Option Nat
  | [], _ => none
  | (nom, num) :: resto, s =>
      if contiene s nom then some num else buscarMes resto s

/-- `escanear_mes_en_hoja` (lines 18-30): scan the trimmed upper-cased sheet
label, then the upper-cased preview text, for a Spanish month name; `none`
models the Python `return None`. The first argument is the preview content
(`df_preview.to_string()`), the second the sheet label, matching the Python
parameter order. -/
def escanear_mes_en_hoja (contenido_preview nombre_pestana : String) : Option Nat :=
  match buscarMes MAPA_MESES (aMayusculas (recortar nombre_pestana)) with
  | some m => some m
  | none => buscarMes MAPA_MESES (aMayusculas contenido_preview)

/-- One data row of a located sheet table: the text of its first column and
its amount cell after numeric coercion (`none` = the cell was not numeric,
i.e. `pd.to_numeric(..., errors=coerce)` produced NaN). -/
structure Fila where
  primeraCol : String
  monto : Option Int
deriving DecidableEq

/-- The scalar extraction of lines 61-68: drop rows whose amount cell is not
numeric (`dropna`), drop rows whose first column contains "TOTAL" after
upper-casing, and sum the remaining amount column. -/
def venta_mensual (filas : List Fila) : Int :=
  (((filas.filter (fun f => f.monto.isSome)).filter
      (fun f => !(contiene (aMayusculas f.primeraCol) ("TOTAL")))).foldl
    (fun a f => a + f.monto.getD 0) 0)

/-- A harvested monthly record (one element of `lista_datos`, lines 71-75):
a linearised first-of-month date and the extracted amount. -/
structure Registro where
  fecha : Nat
  ventas : Int
deriving DecidableEq

/-- `fecha_construida` (line 69): the record date is built from the
caller-supplied year `anio_seleccionado` and the resolved month; the file
name plays no part. -/
def fecha_construida (anio_seleccionado mes_numero : Nat) : Nat :=
  anio_seleccionado * 12 + (mes_numero - 1)

/-- The year actually used for a harvested record (line 69): always the
caller-supplied `anio_seleccionado`; the file name argument is unused because
the source never inspects it for a year. -/
def anio_usado (nombre_archivo : String) (anio_seleccionado : Nat) : Nat :=
  anio_seleccionado

/-- Modelled from the spec: section 4.2 "Year Resolver" describes scanning a
file name for a 4-digit token "20" followed by two digits in [20,39] and
using the first such token; no such scan exists anywhere in
`src/app_financiera.py`. This definition follows the spec's words so it can
be compared with the source's behaviour (`anio_usado`). -/
def esTokenAnio (c0 c1 c2 c3 : Char) : Bool :=
  c0 = '2' && c1 = '0' && (c2 = '2' || c2 = '3') && c3.isDigit

/-- Modelled from the spec: the left-to-right scan of section 4.2, returning
the first embedded year token 20[2-3]x. -/
def buscarAnio : List Char → Option Nat
  | c0 :: c1 :: c2 :: c3 :: resto =>
      if esTokenAnio c0 c1 c2 c3 then
        some (2000 + (c2.toNat - ('0').toNat) * 10 + (c3.toNat - ('0').toNat))
      else buscarAnio (c1 :: c2 :: c3 :: resto)
  | _ => none

/-- Modelled from the spec: the full Year Resolver of section 4.2 — detected
year if a token 20[2-3]x occurs in the file name, else the default. -/
def anio_resolver_spec (nombre_archivo : String) (anio_defecto : Nat) : Nat :=
  (buscarAnio nombre_archivo.toList).getD anio_defecto

/-- Sum of the amounts of all records falling on date `f` — what the
`groupby` of line 85 assigns to the group `f`. -/
def sumaEnFecha (rs : List Registro) (f : Nat) : Int :=
  (rs.filter (fun r => r.fecha == f)).foldl (fun a r => a + r.ventas) 0

/-- Earliest record date (`df_final.index.min()`, line 88). -/
def fechaMin : List Registro → Nat
  | [] => 0
  | r :: resto => resto.foldl (fun a x => min a x.fecha) r.fecha

/-- Latest record date (`df_final.index.max()`, line 88). -/
def fechaMax : List Registro → Nat
  | [] => 0
  | r :: resto => resto.foldl (fun a x => max a x.fecha) r.fecha

/-- The consolidator of lines 83-93: `none` when no records were harvested
(the function returns `None`); otherwise group by date and sum
(`groupby.sum`), sort ascending (`sort_index`), reindex over the full
month range from earliest to latest date (`date_range` with month starts)
and fill absent months with 0 (`fillna(0)`). -/
def consolidar (rs : List Registro) : Option (List (Nat × Int)) :=
  match rs with
  | [] => none
  | _ :: _ =>
      some ((List.range (fechaMax rs - fechaMin rs + 1)).map
        (fun i => (fechaMin rs + i, sumaEnFecha rs (fechaMin rs + i))))

/-- One sheet presented to the harvester after the header row has been
located: its tab label, the textual preview of its leading rows, and the rows
of the located table. -/
structure Hoja where
  nombre_pestana : String
  contenido : String
  filas : List Fila
deriving DecidableEq

/-- Per-sheet harvesting (lines 40-75, with the pandas header location
elided: `filas` is the already-located table): a sheet yields a record only
when a month is resolved, and the record's date comes from the
caller-supplied year. -/
def cosechar_hoja (anio_seleccionado : Nat) (h : Hoja) : Option Registro :=
  match escanear_mes_en_hoja h.contenido h.nombre_pestana with
  | some mes => some ⟨fecha_construida anio_seleccionado mes, venta_mensual h.filas⟩
  | none => none

/-- `procesar_multiples_excels` (lines 32-93) restricted to the happy path of
each sheet: harvest every sheet that resolves a month, then consolidate.
Sheets that resolve no month are skipped, as in the source. -/
def procesar_multiples_excels (hojas : List Hoja) (anio_seleccionado : Nat) :
    Option (List (Nat × Int)) :=
  consolidar (hojas.filterMap (cosechar_hoja anio_seleccionado))

/-- The two smoothing-model tiers of lines 158-176: additive trend with
additive seasonality of period 12, and additive damped trend without
seasonality. -/
inductive TipoModelo
  | estacionalAditivo
  | tendenciaAmortiguada
deriving DecidableEq

/-- The tier the module-level selection (line 158) attempts: the seasonal
model exactly when the training series has at least 18 points, otherwise the
damped-trend model. -/
def modelo_seleccionado (datos_modelo : List Int) : TipoModelo :=
  if datos_modelo.length < 18 then TipoModelo.tendenciaAmortiguada
  else TipoModelo.estacionalAditivo

/-- Outcome of the modelling block: either a fitted model of some tier, or
the fatal path of lines 198-200 (`st.error` then `st.stop`). -/
inductive ResultadoAjuste
  | ajustado (tier : TipoModelo)
  | errorFatal
deriving DecidableEq

/-- The whole try/except of lines 143-200 around the fit: the tier is chosen
by the length threshold, its fit is attempted, and any exception reaches the
single handler, which halts the request. `fallaEstacional` and
`fallaTendencia` are oracles for whether the respective statsmodels `fit()`
call raises on this data. There is no fall-through between tiers. -/
def ajustar_y_proyectar (datos_modelo : List Int)
    (fallaEstacional fallaTendencia : Bool) : ResultadoAjuste :=
  if datos_modelo.length < 18 then
    if fallaTendencia then ResultadoAjuste.errorFatal
    else ResultadoAjuste.ajustado TipoModelo.tendenciaAmortiguada
  else
    if fallaEstacional then ResultadoAjuste.errorFatal
    else ResultadoAjuste.ajustado TipoModelo.estacionalAditivo

/-- The fatal request-level errors of the pipeline: the empty-harvest error
of lines 125-127, the insufficient-history error of lines 146-148, and the
catch-all mathematical error of lines 198-200. Distinct constructors model
the distinct user-facing messages. -/
inductive ErrorPipeline
  | cosechaVacia
  | historiaInsuficiente
  | errorMatematico
deriving DecidableEq

/-- The backtest guard and split of lines 145-150: with `modo_prueba` on,
series of length at most `meses_proy` are rejected with the
insufficient-history error; otherwise the series is split into all-but-last
`meses_proy` months for training and the last `meses_proy` months for
testing. (`meses_proy` comes from a slider ranging over 3-24, so it is
always positive; Python's special slicing at horizon 0 is outside the
reachable inputs and not modelled.) -/
def backtest_split (serie : List Int) (meses_proy : Nat) :
    Except ErrorPipeline (List Int × List Int) :=
  if serie.length ≤ meses_proy then Except.error ErrorPipeline.historiaInsuficiente
  else Except.ok (serie.take (serie.length - meses_proy),
                  serie.drop (serie.length - meses_proy))

/-- One term of `errores_abs / datos_test` (line 184, and the Error % column
of line 245): the absolute error divided by the actual value. A zero actual
makes the quotient undefined (pandas produces an infinity, not a number),
modelled as `none`. -/
def cociente_error (actual prediccion : Rat) : Option Rat :=
  if actual = 0 then none else some (|actual - prediccion| / actual)

/-- The aggregate MAPE of line 184: the mean of the per-period percentage
errors times 100. If any withheld actual is 0 its quotient is undefined and
contaminates the mean, so no finite MAPE exists — modelled as `none`. The
source has no guard for this case. -/
def mape_calculado (datos_test proyeccion : List Rat) : Option Rat :=
  let cocientes := (datos_test.zip proyeccion).map
    (fun par => cociente_error par.1 par.2)
  if cocientes.all (fun c => c.isSome) then
    some (((cocientes.foldl (fun acc c => acc + c.getD 0) 0) /
      (cocientes.length : Rat)) * 100)
  else none

/-- The months whose Spanish names occur in `s`, listed in calendar order:
the vocabulary filtered to the entries whose name is a substring of `s`,
projected to month numbers. Used to characterise the first-hit scan. -/
def mesesQueOcurren (s : String) : List Nat :=
  (MAPA_MESES.filter (fun p => contiene s p.1)).map (fun p => p.2)

/-! ## Helper lemmas -/

/-- The first-match loop equals the head of the calendar-ordered list of
matching vocabulary entries. -/
theorem buscarMes_eq_head (l : List (String × Nat)) (s : String) :
    buscarMes l s = ((l.filter (fun p => contiene s p.1)).map (fun p => p.2)).head? := by
  induction l with
  | nil => rfl
  | cons p t ih =>
      obtain ⟨nom, num⟩ := p
      by_cases hc : contiene s nom = true
      · simp [buscarMes, hc, List.filter_cons]
      · simp [buscarMes, hc, List.filter_cons, ih]

/-- A month returned by the loop is the number of some vocabulary entry. -/
theorem buscarMes_mem (l : List (String × Nat)) (s : String) (m : Nat)
    (h : buscarMes l s = some m) : ∃ p ∈ l, p.2 = m := by
  induction l with
  | nil => simp [buscarMes] at h
  | cons p t ih =>
      obtain ⟨nom, num⟩ := p
      rw [buscarMes] at h
      by_cases hc : contiene s nom = true
      · rw [if_pos hc] at h
        exact ⟨(nom, num), by simp, Option.some.inj h⟩
      · rw [if_neg hc] at h
        obtain ⟨q, hq, hqm⟩ := ih h
        exact ⟨q, by simp [hq], hqm⟩

/-- Any month the resolver returns lies in 1..12. -/
theorem escanear_mes_rango (contenido nombre : String) (m : Nat)
    (h : escanear_mes_en_hoja contenido nombre = some m) : 1 ≤ m ∧ m ≤ 12 := by
  have hmapa : ∀ p ∈ MAPA_MESES, 1 ≤ p.2 ∧ p.2 ≤ 12 := by decide
  unfold escanear_mes_en_hoja at h
  cases hb : buscarMes MAPA_MESES (aMayusculas (recortar nombre)) with
  | some k =>
      rw [hb] at h
      obtain ⟨p, hp, hpk⟩ := buscarMes_mem _ _ _ hb
      injection h with h2
      subst h2
      rw [← hpk]
      exact hmapa p hp
  | none =>
      rw [hb] at h
      obtain ⟨p, hp, hpk⟩ := buscarMes_mem _ _ _ h
      rw [← hpk]
      exact hmapa p hp

/-- If no record falls on date `f`, the grouped sum at `f` is 0. -/
theorem sumaEnFecha_of_not_mem (rs : List Registro) (f : Nat)
    (h : ∀ r ∈ rs, r.fecha ≠ f) : sumaEnFecha rs f = 0 := by
  unfold sumaEnFecha
  have hfil : rs.filter (fun r => r.fecha == f) = [] := by
    rw [List.filter_eq_nil_iff]
    intro r hr
    simpa using h r hr
  rw [hfil]
  rfl

/-- Folding record amounts over a non-negative accumulator stays
non-negative when every amount is non-negative. -/
theorem foldl_ventas_nonneg (l : List Registro) (a : Int) (ha : 0 ≤ a)
    (h : ∀ r ∈ l, 0 ≤ r.ventas) :
    0 ≤ l.foldl (fun acc r => acc + r.ventas) a := by
  induction l generalizing a with
  | nil => simpa using ha
  | cons r t ih =>
      exact ih (a + r.ventas) (add_nonneg ha (h r (by simp)))
        (fun x hx => h x (by simp [hx]))

/-- The grouped monthly sum is non-negative when all record amounts are. -/
theorem sumaEnFecha_nonneg (rs : List Registro) (f : Nat)
    (h : ∀ r ∈ rs, 0 ≤ r.ventas) : 0 ≤ sumaEnFecha rs f :=
  foldl_ventas_nonneg _ _ le_rfl (fun r hr => h r (List.mem_of_mem_filter hr))

/-- A fold of `min` over record dates stays inside any interval containing
the start value and every date. -/
theorem foldl_min_bounds (l : List Registro) (a A B : Nat)
    (haA : A ≤ a) (haB : a ≤ B) (h : ∀ r ∈ l, A ≤ r.fecha ∧ r.fecha ≤ B) :
    A ≤ l.foldl (fun m x => min m x.fecha) a ∧
      l.foldl (fun m x => min m x.fecha) a ≤ B := by
  induction l generalizing a with
  | nil => exact ⟨haA, haB⟩
  | cons r t ih =>
      exact ih (min a r.fecha) (le_min haA (h r (by simp)).1)
        (le_trans (min_le_left _ _) haB)
        (fun x hx => h x (by simp [hx]))

/-- A fold of `max` over record dates stays inside any interval containing
the start value and every date. -/
theorem foldl_max_bounds (l : List Registro) (a A B : Nat)
    (haA : A ≤ a) (haB : a ≤ B) (h : ∀ r ∈ l, A ≤ r.fecha ∧ r.fecha ≤ B) :
    A ≤ l.foldl (fun m x => max m x.fecha) a ∧
      l.foldl (fun m x => max m x.fecha) a ≤ B := by
  induction l generalizing a with
  | nil => exact ⟨haA, haB⟩
  | cons r t ih =>
      exact ih (max a r.fecha) (le_trans haA (le_max_left _ _))
        (max_le haB (h r (by simp)).2)
        (fun x hx => h x (by simp [hx]))

/-- The earliest date of a non-empty record list lies in any interval
containing every record date. -/
theorem fechaMin_bounds (rs : List Registro) (A B : Nat) (hne : rs ≠ [])
    (h : ∀ r ∈ rs, A ≤ r.fecha ∧ r.fecha ≤ B) :
    A ≤ fechaMin rs ∧ fechaMin rs ≤ B := by
  cases rs with
  | nil => exact absurd rfl hne
  | cons r resto =>
      exact foldl_min_bounds resto r.fecha A B (h r (by simp)).1 (h r (by simp)).2
        (fun x hx => h x (by simp [hx]))

/-- The latest date of a non-empty record list lies in any interval
containing every record date. -/
theorem fechaMax_bounds (rs : List Registro) (A B : Nat) (hne : rs ≠ [])
    (h : ∀ r ∈ rs, A ≤ r.fecha ∧ r.fecha ≤ B) :
    A ≤ fechaMax rs ∧ fechaMax rs ≤ B := by
  cases rs with
  | nil => exact absurd rfl hne
  | cons r resto =>
      exact foldl_max_bounds resto r.fecha A B (h r (by simp)).1 (h r (by simp)).2
        (fun x hx => h x (by simp [hx]))

/-- Entries of the consolidated series lie inside any interval containing
every record date, and there are at most as many entries as the interval has
months. -/
theorem consolidar_bounds (rs : List Registro) (A B : Nat) (l : List (Nat × Int))
    (h : ∀ r ∈ rs, A ≤ r.fecha ∧ r.fecha ≤ B)
    (hl : consolidar rs = some l) :
    l.length ≤ B - A + 1 ∧ ∀ e ∈ l, A ≤ e.1 ∧ e.1 ≤ B := by
  cases rs with
  | nil => simp [consolidar] at hl
  | cons r resto =>
      have hne : (r :: resto : List Registro) ≠ [] := by simp
      have hmin := fechaMin_bounds (r :: resto) A B hne h
      have hmax := fechaMax_bounds (r :: resto) A B hne h
      simp only [consolidar] at hl
      injection hl with hl2
      subst hl2
      constructor
      · simp only [List.length_map, List.length_range]
        omega
      · intro e he
        obtain ⟨i, hi, rfl⟩ := List.mem_map.mp he
        rw [List.mem_range] at hi
        refine ⟨?_, ?_⟩ <;> simp only [] <;> omega

/-! ## Claim theorems -/

/-- C1, counterexample: a 12-point training series does not make the
selector attempt the additive-seasonal tier — at length 12 (which is at
least 12) the damped-trend model is selected, refuting the claimed
threshold of 12. -/
theorem C1_contraejemplo :
    modelo_seleccionado (List.replicate 12 (0 : Int)) = TipoModelo.tendenciaAmortiguada ∧
    TipoModelo.tendenciaAmortiguada ≠ TipoModelo.estacionalAditivo := by
  decide

/-- C1, amended: the seasonal tier is attempted first exactly for training
sequences of length at least 18; for every sequence of length 17 or less the
seasonal tier is never attempted and the damped-trend, no-seasonal model is
fitted instead. -/
theorem C1_umbral_estacional (datos_modelo : List Int) :
    (18 ≤ datos_modelo.length →
      modelo_seleccionado datos_modelo = TipoModelo.estacionalAditivo) ∧
    (datos_modelo.length < 18 →
      modelo_seleccionado datos_modelo = TipoModelo.tendenciaAmortiguada) := by
  refine ⟨fun h => ?_, fun h => ?_⟩
  · unfold modelo_seleccionado
    rw [if_neg (Nat.not_lt.mpr h)]
  · unfold modelo_seleccionado
    rw [if_pos h]

/-- C1, witness: an 18-point series selects the seasonal tier and an
11-point series selects the damped-trend tier. -/
theorem C1_testigo :
    modelo_seleccionado (List.replicate 18 (0 : Int)) = TipoModelo.estacionalAditivo ∧
    modelo_seleccionado (List.replicate 11 (0 : Int)) = TipoModelo.tendenciaAmortiguada :=
  ⟨(C1_umbral_estacional (List.replicate 18 0)).1 (by decide),
   (C1_umbral_estacional (List.replicate 11 0)).2 (by decide)⟩

/-- C2, counterexample: on an 18-point series whose seasonal fit raises
(and whose damped-trend fit would succeed), the request ends in the fatal
error path — the selector does not recover by fitting the damped-trend
model, refuting the claimed local fallback. -/
theorem C2_contraejemplo :
    ajustar_y_proyectar (List.replicate 18 (0 : Int)) true false =
      ResultadoAjuste.errorFatal ∧
    ResultadoAjuste.errorFatal ≠
      ResultadoAjuste.ajustado TipoModelo.tendenciaAmortiguada := by
  decide

/-- C2, amended: a fit failure at whichever tier the length threshold
selects is fatal to the request — a seasonal-tier failure is never recovered
by falling back to the trend-only tier (the trend-only fit outcome is
irrelevant when the seasonal tier is selected), and a trend-only-tier
failure is likewise fatal. -/
theorem C2_fallo_de_ajuste_fatal (datos_modelo : List Int) (fe ft : Bool) :
    (18 ≤ datos_modelo.length →
      ajustar_y_proyectar datos_modelo true ft = ResultadoAjuste.errorFatal) ∧
    (datos_modelo.length < 18 →
      ajustar_y_proyectar datos_modelo fe true = ResultadoAjuste.errorFatal) ∧
    (18 ≤ datos_modelo.length →
      ajustar_y_proyectar datos_modelo true ft =
        ajustar_y_proyectar datos_modelo true (!ft)) := by
  refine ⟨fun h => ?_, fun h => ?_, fun h => ?_⟩
  · unfold ajustar_y_proyectar
    rw [if_neg (Nat.not_lt.mpr h), if_pos rfl]
  · unfold ajustar_y_proyectar
    rw [if_pos h, if_pos rfl]
  · unfold ajustar_y_proyectar
    rw [if_neg (Nat.not_lt.mpr h), if_neg (Nat.not_lt.mpr h)]

/-- C2, witness: a seasonal-fit failure on an 18-point series is fatal, a
trend-fit failure on a 5-point series is fatal, and with the seasonal tier
selected the result ignores the trend-fit oracle. -/
theorem C2_testigo :
    ajustar_y_proyectar (List.replicate 18 (0 : Int)) true false =
      ResultadoAjuste.errorFatal ∧
    ajustar_y_proyectar (List.replicate 5 (0 : Int)) false true =
      ResultadoAjuste.errorFatal ∧
    ajustar_y_proyectar (List.replicate 18 (0 : Int)) true false =
      ajustar_y_proyectar (List.replicate 18 (0 : Int)) true (!false) :=
  ⟨(C2_fallo_de_ajuste_fatal (List.replicate 18 0) false false).1 (by decide),
   (C2_fallo_de_ajuste_fatal (List.replicate 5 0) false false).2.1 (by decide),
   (C2_fallo_de_ajuste_fatal (List.replicate 18 0) false false).2.2 (by decide)⟩

/-- C3, counterexample: for the file name "ventas_2025.xlsx" with default
year 2024, the spec's Year Resolver would detect 2025, but the program uses
2024 — the caller-supplied year — because no file-name scan exists in the
source. -/
theorem C3_contraejemplo :
    anio_usado ("ventas_2025.xlsx") 2024 = 2024 ∧
    anio_resolver_spec ("ventas_2025.xlsx") 2024 = 2025 ∧
    (2024 : Nat) ≠ 2025 := by
  decide

/-- C3, amended: the year of every harvested record is always the
caller-supplied year; the file name is never scanned, so the resolved year
is independent of it. -/
theorem C3_anio_siempre_el_por_defecto (nombre otroNombre : String) (anio : Nat) :
    anio_usado nombre anio = anio ∧
    anio_usado nombre anio = anio_usado otroNombre anio :=
  ⟨rfl, rfl⟩

/-- C5: the backtest fails with the insufficient-history error (a distinct
error from the empty-harvest one) exactly when the series length is at most
the horizon; for any strictly longer series it splits into all-but-last-H
training months and last-H test months. -/
theorem C5_guardia_de_backtest (serie : List Int) (meses_proy : Nat) :
    (backtest_split serie meses_proy =
        Except.error ErrorPipeline.historiaInsuficiente ↔
      serie.length ≤ meses_proy) ∧
    (meses_proy < serie.length →
      backtest_split serie meses_proy =
        Except.ok (serie.take (serie.length - meses_proy),
          serie.drop (serie.length - meses_proy)) ∧
      (serie.take (serie.length - meses_proy)).length =
        serie.length - meses_proy ∧
      (serie.drop (serie.length - meses_proy)).length = meses_proy) ∧
    ErrorPipeline.historiaInsuficiente ≠ ErrorPipeline.cosechaVacia := by
  refine ⟨⟨fun h => ?_, fun h => ?_⟩, fun h => ⟨?_, ?_, ?_⟩, by decide⟩
  · by_contra hc
    unfold backtest_split at h
    rw [if_neg hc] at h
    exact absurd h (by simp)
  · unfold backtest_split
    rw [if_pos h]
  · unfold backtest_split
    rw [if_neg (Nat.not_le.mpr h)]
  · rw [List.length_take]
    omega
  · rw [List.length_drop]
    omega

/-- C5, witness: a 6-month series with horizon 6 hits the
insufficient-history error, and a 7-month series with horizon 6 splits into
the first month for training and the last six for testing. -/
theorem C5_testigo :
    backtest_split [1, 2, 3, 4, 5, 6] 6 =
      Except.error ErrorPipeline.historiaInsuficiente ∧
    backtest_split [1, 2, 3, 4, 5, 6, 7] 6 =
      Except.ok ([1], [2, 3, 4, 5, 6, 7]) := by
  refine ⟨(C5_guardia_de_backtest [1, 2, 3, 4, 5, 6] 6).1.mpr (by decide), ?_⟩
  exact (((C5_guardia_de_backtest [1, 2, 3, 4, 5, 6, 7] 6).2.1 (by decide)).1).trans
    (by rfl)

/-- C6: the code does not handle the zero-actual case — with withheld
actuals [0, 10] and predictions [5, 10] the per-period quotient at the zero
actual is undefined and contaminates the mean, so no finite MAPE exists (the
source computes `errores_abs / datos_test` with no guard). -/
theorem C6_mape_division_por_cero :
    mape_calculado [0, 10] [5, 10] = none ∧ cociente_error 0 5 = none := by
  decide

/-- C4: consolidating a non-empty harvest yields exactly one entry per
calendar month from the earliest to the latest observed date, in ascending
order; each entry carries the sum of the amounts of all records on its date
(so two sheets on the same month contribute one summed entry), and a month
with no records appears with amount 0. -/
theorem C4_consolidador (rs : List Registro) (hne : rs ≠ []) :
    ∃ l, consolidar rs = some l ∧
      l.length = fechaMax rs - fechaMin rs + 1 ∧
      (∀ i, ∀ hi : i < l.length,
        l.get ⟨i, hi⟩ = (fechaMin rs + i, sumaEnFecha rs (fechaMin rs + i))) ∧
      List.Pairwise (fun a b => a.1 < b.1) l ∧
      (∀ f, fechaMin rs ≤ f → f ≤ fechaMax rs →
        (∀ r ∈ rs, r.fecha ≠ f) → (f, (0 : Int)) ∈ l) := by
  cases rs with
  | nil => exact absurd rfl hne
  | cons r resto =>
      refine ⟨_, rfl, by simp, ?_, ?_, ?_⟩
      · intro i hi
        simp [List.get_eq_getElem]
      · rw [List.pairwise_map]
        exact (List.pairwise_lt_range _).imp (fun hab => by omega)
      · intro f hlo hhi hnot
        have hmem : f - fechaMin (r :: resto) ∈
            List.range (fechaMax (r :: resto) - fechaMin (r :: resto) + 1) := by
          rw [List.mem_range]
          omega
        have hmapa := List.mem_map_of_mem
          (fun i => (fechaMin (r :: resto) + i,
            sumaEnFecha (r :: resto) (fechaMin (r :: resto) + i))) hmem
        dsimp only at hmapa
        rw [Nat.add_sub_cancel' hlo] at hmapa
        rwa [sumaEnFecha_of_not_mem _ _ hnot] at hmapa

/-- C4, witness: a harvest of January 2024 (month 24288 in linearised form)
and March 2024 (24290) with no February yields three entries with February
filled as 0, each entry the grouped sum at its month. -/
theorem C4_testigo :
    ∃ l, consolidar [⟨24288, 1000⟩, ⟨24290, 500⟩] = some l ∧
      l.length = fechaMax [⟨24288, 1000⟩, ⟨24290, 500⟩] -
        fechaMin [⟨24288, 1000⟩, ⟨24290, 500⟩] + 1 ∧
      (∀ i, ∀ hi : i < l.length,
        l.get ⟨i, hi⟩ = (fechaMin [⟨24288, 1000⟩, ⟨24290, 500⟩] + i,
          sumaEnFecha [⟨24288, 1000⟩, ⟨24290, 500⟩]
            (fechaMin [⟨24288, 1000⟩, ⟨24290, 500⟩] + i))) ∧
      List.Pairwise (fun a b => a.1 < b.1) l ∧
      (∀ f, fechaMin [⟨24288, 1000⟩, ⟨24290, 500⟩] ≤ f →
        f ≤ fechaMax [⟨24288, 1000⟩, ⟨24290, 500⟩] →
        (∀ r ∈ [(⟨24288, 1000⟩ : Registro), ⟨24290, 500⟩], r.fecha ≠ f) →
        (f, (0 : Int)) ∈ l) :=
  C4_consolidador [⟨24288, 1000⟩, ⟨24290, 500⟩] (by decide)

/-- C7: the Month Resolver equals the first element of the calendar-ordered
list of months occurring in the trimmed, case-folded label, falling back to
the first element of the same list for the case-folded preview, and `none`
when both lists are empty; since each occurrence list is strictly ascending
in calendar order, a text containing several month names always resolves to
the earliest month in calendar order. -/
theorem C7_resolutor_de_mes (contenido_preview nombre_pestana : String) :
    escanear_mes_en_hoja contenido_preview nombre_pestana =
      ((mesesQueOcurren (aMayusculas (recortar nombre_pestana))).head?.orElse
        (fun _ => (mesesQueOcurren (aMayusculas contenido_preview)).head?)) ∧
    ∀ s : String, List.Pairwise (· < ·) (mesesQueOcurren s) := by
  constructor
  · unfold escanear_mes_en_hoja mesesQueOcurren
    simp only [← buscarMes_eq_head]
    cases buscarMes MAPA_MESES (aMayusculas (recortar nombre_pestana)) <;> rfl
  · intro s
    unfold mesesQueOcurren
    rw [List.pairwise_map]
    exact List.Pairwise.sublist (List.filter_sublist _)
      (show List.Pairwise (fun a b => a.2 < b.2) MAPA_MESES by decide)

/-- C8: the extracted scalar ignores any appended row whose first-column
text contains "total" after case folding, ignores any appended row whose
amount cell is non-numeric, and grows by exactly the amount of an appended
numeric, non-total row. -/
theorem C8_extraccion (filas : List Fila) (txtTotal otraCol : String) (v w : Int)
    (hTot : contiene (aMayusculas txtTotal) ("TOTAL") = true)
    (hNoTot : contiene (aMayusculas otraCol) ("TOTAL") = false) :
    venta_mensual (filas ++ [⟨txtTotal, some v⟩]) = venta_mensual filas ∧
    venta_mensual (filas ++ [⟨otraCol, none⟩]) = venta_mensual filas ∧
    venta_mensual (filas ++ [⟨otraCol, some w⟩]) = venta_mensual filas + w := by
  refine ⟨?_, ?_, ?_⟩ <;>
    simp [venta_mensual, List.filter_append, List.foldl_append, hTot, hNoTot]

/-- C8, witness: with one ordinary row, appending a "Total general" row, a
non-numeric row, or a numeric client row behaves as the claim states. -/
theorem C8_testigo :
    venta_mensual [⟨"a", some 5⟩, ⟨"Total general", some 100⟩] =
      venta_mensual [⟨"a", some 5⟩] ∧
    venta_mensual [⟨"a", some 5⟩, ⟨"cliente", none⟩] =
      venta_mensual [⟨"a", some 5⟩] ∧
    venta_mensual [⟨"a", some 5⟩, ⟨"cliente", some 7⟩] =
      venta_mensual [⟨"a", some 5⟩] + 7 :=
  C8_extraccion [⟨"a", some 5⟩] ("Total general") ("cliente") 100 7
    (by decide) (by decide)

/-- C9, counterexample: a harvest containing a single record with a negative
amount consolidates to a series whose only entry is negative, refuting the
claimed unconditional non-negativity. -/
theorem C9_contraejemplo :
    consolidar [⟨24288, -5⟩] = some [(24288, -5)] ∧ ((-5 : Int) < 0) := by
  decide

/-- C9, amended: every amount in the consolidated series is non-negative
provided every harvested record amount is non-negative (zero-filled months
are 0; grouped months are sums of non-negative amounts). -/
theorem C9_no_negativo_condicional (rs : List Registro)
    (hpos : ∀ r ∈ rs, 0 ≤ r.ventas) :
    ∀ l, consolidar rs = some l → ∀ e ∈ l, 0 ≤ e.2 := by
  intro l hl e he
  cases rs with
  | nil => simp [consolidar] at hl
  | cons r resto =>
      simp only [consolidar] at hl
      injection hl with hl2
      subst hl2
      obtain ⟨i, hi, rfl⟩ := List.mem_map.mp he
      exact sumaEnFecha_nonneg _ _ hpos

/-- C9, witness: a single non-negative record consolidates to a series
whose entries are all non-negative. -/
theorem C9_testigo : 0 ≤ (((24288 : Nat), (3 : Int))).2 :=
  C9_no_negativo_condicional [⟨24288, 3⟩] (by decide) [(24288, 3)] (by decide)
    (24288, 3) (by decide)

/-- C10: every harvested record's date is built from the single
caller-supplied year, so a successful run's consolidated series has at most
12 entries and every entry's month lies inside that calendar year. -/
theorem C10_un_solo_anio (hojas : List Hoja) (anio : Nat) (l : List (Nat × Int))
    (hl : procesar_multiples_excels hojas anio = some l) :
    l.length ≤ 12 ∧ ∀ e ∈ l, anio * 12 ≤ e.1 ∧ e.1 ≤ anio * 12 + 11 := by
  have hbnd : ∀ r ∈ hojas.filterMap (cosechar_hoja anio),
      anio * 12 ≤ r.fecha ∧ r.fecha ≤ anio * 12 + 11 := by
    intro r hr
    obtain ⟨h, hh, hch⟩ := List.mem_filterMap.mp hr
    unfold cosechar_hoja at hch
    cases hesc : escanear_mes_en_hoja h.contenido h.nombre_pestana with
    | none => rw [hesc] at hch; cases hch
    | some mes =>
        rw [hesc] at hch
        obtain ⟨hm1, hm12⟩ := escanear_mes_rango _ _ _ hesc
        injection hch with hch2
        subst hch2
        unfold fecha_construida
        dsimp only
        omega
  unfold procesar_multiples_excels at hl
  have hres := consolidar_bounds _ _ _ l hbnd hl
  exact ⟨by have := hres.1; omega, hres.2⟩

/-- C10, witness: a single January sheet with year 2024 yields a one-entry
series inside 2024. -/
theorem C10_testigo :
    List.length [((24288 : Nat), (100 : Int))] ≤ 12 ∧
    ∀ e ∈ [((24288 : Nat), (100 : Int))], 2024 * 12 ≤ e.1 ∧ e.1 ≤ 2024 * 12 + 11 :=
  C10_un_solo_anio [⟨"ENERO", "", [⟨"a", some 100⟩]⟩] 2024 [(24288, 100)]
    (by decide)

end AppFinanciera
